import Mathlib

/-!
Shallow embedding of the RAG / Vertex AI vector-search orchestration layer
(crosscore/rag-vertex-ai-vector-search), covering:

* `src/common/utils/embeddings.py` — tokenizer validation, batching,
  retry loop and parallel batch collection (`TextTokenizer`,
  `EmbeddingGenerator`);
* `src/rag/search.py` — the search orchestrator
  (`SemanticSearcher._process_search_results`, `SemanticSearcher.search`);
* `src/common/utils/result_formatter.py` — `ResultAnalyzer.calculate_statistics`
  and `ResultFormatter.filter_results`;
* `src/vector_store/utils/firestore_ops.py` — `FirestoreManager` metadata
  save / get / update.

Modelling conventions:
* Python floats (distances, similarity scores) are modelled as exact
  rationals `ℚ`; the claims under verification concern the algebraic
  formula and comparisons, which the code performs directly on the values.
* Python timestamps (`datetime.now()`) are modelled as `Nat` instants
  passed explicitly to the operations that read the clock.
* External services (tiktoken, the embedding model, the Firestore
  transport) are parameters of the embedded functions; the document store
  itself is a state `FirestoreState`.
* Python exceptions are modelled with `Except String`; a raised exception
  is an `Except.error` carrying the message the code formats.
-/

namespace RagVectorSearch

/-! ## Firestore document model (`src/vector_store/utils/firestore_ops.py`)

Firestore documents are Python dicts; we model them as insertion-ordered
association lists, with `dictSet` reproducing Python's `d[k] = v`
(replace in place, else append) and `dictUpdate` reproducing
`d.update(other)`. -/

/-- A Firestore field value: the code stores strings and `datetime.now()`
timestamps. -/
inductive FieldValue where
  | str : String → FieldValue
  | time : Nat → FieldValue
deriving Repr, DecidableEq

abbrev Dict := List (String × FieldValue)

/-- Python `d[k] = v`: replace the existing binding in place, else append. -/
def dictSet : Dict → String → FieldValue → Dict
  | [], k, v => [(k, v)]
  | (k0, v0) :: rest, k, v =>
    if k0 = k then (k, v) :: rest else (k0, v0) :: dictSet rest k v

/-- Python `d.update(other)`: fold the other dict's bindings into `d`. -/
def dictUpdate (d : Dict) (other : Dict) : Dict :=
  other.foldl (fun acc kv => dictSet acc kv.1 kv.2) d

/-- Python `d.get(k)` / `d[k]`: first binding for `k`, if any. -/
def dictGet (d : Dict) (k : String) : Option FieldValue :=
  (d.find? (fun kv => kv.1 == k)).map (·.2)

/-- The document store: collection name → document id → stored dict. -/
def FirestoreState := String → String → Option Dict

/-- The store with one document overwritten (Firestore `doc_ref.set`). -/
def stateSet (st : FirestoreState) (c i : String) (d : Dict) : FirestoreState :=
  fun c2 i2 => if c2 = c then (if i2 = i then some d else st c2 i2) else st c2 i2

/-- The empty document store. -/
def emptyState : FirestoreState := fun _ _ => none

/-- Model of `FirestoreManager.save_text_metadata` (firestore_ops.py lines 87-124):
builds the base metadata dict with `created_at` / `updated_at` both set to
the current time, merges `additional_metadata` over it if given, and
`doc_ref.set`s the whole document. -/
def save_text_metadata (st : FirestoreState) (collection data_point_id text : String)
    (additional_metadata : Option Dict) (now : Nat) : FirestoreState :=
  let metadata : Dict :=
    [("data_point_id", FieldValue.str data_point_id),
     ("text", FieldValue.str text),
     ("created_at", FieldValue.time now),
     ("updated_at", FieldValue.time now)]
  let metadata :=
    match additional_metadata with
    | some extra => dictUpdate metadata extra
    | none => metadata
  stateSet st collection data_point_id metadata

/-- A fetched document snapshot: `doc_ref.get()` always yields a snapshot;
its `exists` flag tells whether the document is present. -/
structure DocSnapshot where
  docExists : Bool
  data : Dict
deriving Repr, DecidableEq

/-- Model of `doc_ref.get()` against the store: a snapshot with `exists = False`
and no data when the document is absent. -/
def docGet (st : FirestoreState) (c i : String) : DocSnapshot :=
  match st c i with
  | some d => { docExists := true, data := d }
  | none => { docExists := false, data := [] }

/-- Model of `FirestoreManager.get_text_metadata` (firestore_ops.py lines 126-154):
fetch the snapshot; return its dict when `doc.exists`, else `None`.
The only `raise` in the source re-raises a `GoogleAPIError` from the
transport; absence of the document is not an error path. -/
def get_text_metadata (st : FirestoreState) (collection data_point_id : String) :
    Option Dict :=
  let doc := docGet st collection data_point_id
  if doc.docExists then some doc.data else none

/-- Model of `FirestoreManager.update_text_metadata` (firestore_ops.py lines 200-225):
stamp `updated_at` into the updates dict, then `doc_ref.update` (merge into
the existing document; raises NotFound when the document is absent). -/
def update_text_metadata (st : FirestoreState) (collection data_point_id : String)
    (updates : Dict) (now : Nat) : Except String FirestoreState :=
  let updates := dictSet updates "updated_at" (FieldValue.time now)
  match st collection data_point_id with
  | none => Except.error "No document to update"
  | some d =>
      Except.ok (stateSet st collection data_point_id (dictUpdate d updates))

/-! ## Search orchestrator (`src/rag/search.py`) -/

/-- One neighbor returned by the vector index (`MatchNeighbor`): an id and
a raw distance. -/
structure MatchNeighbor where
  id : String
  distance : ℚ
deriving Repr, DecidableEq

/-- One surviving match in the processed results:
`{'data_point_id': ..., 'similarity_score': ..., 'metadata': ...}`. -/
structure MatchEntry where
  data_point_id : String
  similarity_score : ℚ
  metadata : Dict
deriving Repr, DecidableEq

/-- One per-question processed result: `{'question': ..., 'results': [...]}`. -/
structure QueryResult where
  question : String
  results : List MatchEntry
deriving Repr, DecidableEq

/-- Python truthiness of the fetched metadata (`if metadata:`): `None` and
the empty dict are falsy. -/
def pyTruthy : Option Dict → Bool
  | none => false
  | some d => !d.isEmpty

/-- The body of the inner loop of `SemanticSearcher._process_search_results`
(search.py lines 136-154): compute `similarity_score = 1.0 - distance/2.0`,
skip the match when the score is below the threshold, fetch the metadata,
and emit an entry only when the fetched metadata is truthy. -/
def processMatch (minScore : ℚ) (store : String → Option Dict)
    (m : MatchNeighbor) : Option MatchEntry :=
  let similarity_score : ℚ := 1 - m.distance / 2
  if similarity_score < minScore then none
  else
    let metadata := store m.id
    if pyTruthy metadata then
      some { data_point_id := m.id, similarity_score := similarity_score,
             metadata := metadata.getD [] }
    else none

/-- Model of `SemanticSearcher._process_search_results` (search.py lines 113-162):
`zip(questions, raw_results)` and collect the surviving entries per
question. `store` is `firestore_manager.get_text_metadata(FIRESTORE_COLLECTION, ·)`. -/
def processSearchResults (questions : List String)
    (raw_results : List (List MatchNeighbor)) (minScore : ℚ)
    (store : String → Option Dict) : List QueryResult :=
  (questions.zip raw_results).map fun qr =>
    { question := qr.1, results := qr.2.filterMap (processMatch minScore store) }

/-! ## Embedding pipeline (`src/common/utils/embeddings.py`)

The external tiktoken encoder is a parameter `countTokens : String → Nat`;
the external embedding model call `model.get_embeddings` is a parameter
returning `Except String (List E)` for an abstract vector type `E`
(`Except.error` models the call raising). Because
`EmbeddingGenerator.generate_embeddings` invokes each batch call exactly
once, and `_generate_single_embedding` invokes the model once per retry
attempt, the service parameter also takes the attempt number, so that a
transiently failing service is expressible. -/

/-- One element of `text_info_list`: `{'filename': ..., 'content': ...}`. -/
structure TextInfo where
  filename : String
  content : String
deriving Repr, DecidableEq

/-- Model of `EmbeddingConfig` (embeddings.py lines 54-62), the fields the pipeline
logic reads. Source defaults: `MAX_TOKENS_PER_TEXT = 2042`,
`EMBEDDING_BATCH_SIZE = 10`, `MAX_RETRY_ATTEMPTS = 3`,
`RETRY_DELAY_SECONDS = 1` (config.py). -/
structure EmbeddingConfig where
  maxTokens : Nat := 2042
  batchSize : Nat := 10
  retryAttempts : Nat := 3
  retryDelay : Nat := 1
deriving Repr, DecidableEq

/-- Model of `TokenValidationResult` (embeddings.py lines 47-52). -/
structure TokenValidationResult where
  is_valid : Bool
  token_count : Nat
  error_message : Option String
deriving Repr, DecidableEq

/-- The message `f"Token count {token_count} exceeds limit {max_tokens}"`. -/
def tokenLimitMsg (token_count max_tokens : Nat) : String :=
  "Token count " ++ toString token_count ++ " exceeds limit " ++ toString max_tokens

/-- Model of `TextTokenizer.validate_token_count` (embeddings.py lines 103-132):
count tokens, compare against the limit, report a message when over.
(`countTokens` is tiktoken's `len(encoding.encode(text))`.) -/
def validate_token_count (countTokens : String → Nat) (text : String)
    (max_tokens : Nat) : TokenValidationResult :=
  let token_count := countTokens text
  let is_valid := token_count ≤ max_tokens
  { is_valid := is_valid
    token_count := token_count
    error_message := if is_valid then none else some (tokenLimitMsg token_count max_tokens) }

/-- The message `f"Validation failed for {filename}: {error_message}"`. -/
def validationFailedMsg (filename msg : String) : String :=
  "Validation failed for " ++ filename ++ ": " ++ msg

/-- Model of `EmbeddingGenerator.validate_and_prepare_texts` (embeddings.py lines
204-238): walk the list in order; raise `TokenizationError` at the first
text whose token count exceeds the limit, naming its filename; otherwise
return the contents in input order. -/
def validate_and_prepare_texts (countTokens : String → Nat) (max_tokens : Nat) :
    List TextInfo → Except String (List String)
  | [] => Except.ok []
  | info :: rest =>
    let validation_result := validate_token_count countTokens info.content max_tokens
    if validation_result.is_valid then
      (validate_and_prepare_texts countTokens max_tokens rest).map (info.content :: ·)
    else
      Except.error (validationFailedMsg info.filename
        (validation_result.error_message.getD ""))

/-- Structural worker for `makeBatches`: `fuel` bounds the number of
chunks taken (each chunk consumes at least one element, so `l.length`
fuel always suffices). -/
def makeBatchesAux {α : Type} (n : Nat) : Nat → List α → List (List α)
  | 0, _ => []
  | _ + 1, [] => []
  | fuel + 1, x :: xs => (x :: xs.take (n - 1)) :: makeBatchesAux n fuel (xs.drop (n - 1))

/-- The batch list `[texts[i:i+batch_size] for i in range(0, total, batch_size)]`
(embeddings.py lines 259-262). Sensible for `n ≥ 1`, which the source
guarantees (`EMBEDDING_BATCH_SIZE = 10`; Python `range` with step 0 raises). -/
def makeBatches {α : Type} (n : Nat) (l : List α) : List (List α) :=
  makeBatchesAux n l.length l

/-- The message `f"Failed to process batch starting at index {start_idx}: {e}"`. -/
def processBatchMsg (start_idx : Nat) (e : String) : String :=
  "Failed to process batch starting at index " ++ toString start_idx ++ ": " ++ e

/-- Model of `EmbeddingGenerator._process_batch` (embeddings.py lines 180-202): one
call to `model.get_embeddings(texts)` — no retry — wrapping a failure into
`BatchProcessingError` with the batch's start index. `callResult` is the
outcome of that single call. -/
def processBatch {E : Type} (callResult : Except String (List E))
    (start_idx : Nat) : Except String (List E) :=
  match callResult with
  | Except.ok embeddings => Except.ok embeddings
  | Except.error e => Except.error (processBatchMsg start_idx e)

/-- The message `f"Batch {batch_idx + 1} failed: {e}"`. -/
def batchFailedMsg (batch_idx : Nat) (e : String) : String :=
  let n := batch_idx + 1
  "Batch " ++ toString n ++ " failed: " ++ e

/-- The `as_completed` collection loop of `generate_embeddings`
(embeddings.py lines 274-286): consume the futures in completion order
(`completionOrder` lists batch indices as their futures complete),
`extend`ing `all_embeddings` with each batch's vectors; the first failed
batch raises `EmbeddingError` and aborts. `svc attempt texts` is the
model call; the loop's batch calls were issued at attempt `0`. -/
def collectCompleted {E : Type} (svc : Nat → List String → Except String (List E))
    (batchSize : Nat) (batches : List (List String)) :
    List Nat → List E → Except String (List E)
  | [], all_embeddings => Except.ok all_embeddings
  | batch_idx :: rest, all_embeddings =>
    match processBatch (svc 0 (batches.getD batch_idx [])) (batch_idx * batchSize) with
    | Except.ok batch_embeddings =>
        collectCompleted svc batchSize batches rest (all_embeddings ++ batch_embeddings)
    | Except.error e => Except.error (batchFailedMsg batch_idx e)

/-- The message `f"Embedding count mismatch. Expected: {total}, Got: {got}"`. -/
def countMismatchMsg (total got : Nat) : String :=
  "Embedding count mismatch. Expected: " ++ toString total ++ ", Got: " ++ toString got

/-- The outer wrapper `f"Embedding generation failed: {e}"` (embeddings.py
lines 302-305). -/
def embeddingFailedMsg (e : String) : String :=
  "Embedding generation failed: " ++ e

/-- Model of `EmbeddingGenerator.generate_embeddings` (embeddings.py lines 240-305):
validate and prepare the texts, split into batches of `batchSize`, dispatch
one `_process_batch` call per batch to the thread pool, collect results in
completion order (`completionOrder`), then raise unless the number of
collected vectors equals the number of input texts. Every exception is
re-wrapped into `EmbeddingError("Embedding generation failed: ...")`. -/
def generate_embeddings {E : Type} (countTokens : String → Nat)
    (svc : Nat → List String → Except String (List E))
    (completionOrder : List Nat) (cfg : EmbeddingConfig)
    (text_info_list : List TextInfo) : Except String (List E) :=
  match validate_and_prepare_texts countTokens cfg.maxTokens text_info_list with
  | Except.error e => Except.error (embeddingFailedMsg e)
  | Except.ok texts =>
    let total_texts := texts.length
    let batches := makeBatches cfg.batchSize texts
    match collectCompleted svc cfg.batchSize batches completionOrder [] with
    | Except.error e => Except.error (embeddingFailedMsg e)
    | Except.ok all_embeddings =>
      if all_embeddings.length ≠ total_texts then
        Except.error (embeddingFailedMsg
          (countMismatchMsg total_texts all_embeddings.length))
      else
        Except.ok all_embeddings

/-- The terminal-failure message of `_generate_single_embedding`
(embeddings.py lines 167-170), with the text-preview elided as `e` carries
the underlying error. -/
def singleFailMsg (attempts : Nat) (e : String) : String :=
  "Failed to generate embedding after " ++ toString attempts ++ " attempts. Error: " ++ e

/-- The retry loop of `EmbeddingGenerator._generate_single_embedding`
(embeddings.py lines 148-178), tracking the observable effects:
`for attempt in range(retry_attempts)`: call the model; return its value
on success; on failure re-raise when `attempt == retry_attempts - 1`,
else `time.sleep(retry_delay)` and continue. The result records the
outcome, the number of model calls made, and the total time slept. -/
def retryLoop {E : Type} (svc : Nat → Except String E)
    (retry_attempts retry_delay : Nat) (attempt : Nat) :
    Except String E × Nat × Nat :=
  if _h : attempt < retry_attempts then
    match svc attempt with
    | Except.ok v => (Except.ok v, attempt + 1, attempt * retry_delay)
    | Except.error e =>
      if attempt = retry_attempts - 1 then
        (Except.error (singleFailMsg retry_attempts e), attempt + 1, attempt * retry_delay)
      else
        retryLoop svc retry_attempts retry_delay (attempt + 1)
  else
    -- `range(0)` runs no iterations; the Python function falls through
    -- (returning `None`); only reachable with `retry_attempts = 0`.
    (Except.error "no attempts made", 0, 0)
termination_by retry_attempts - attempt

/-- Model of `EmbeddingGenerator._generate_single_embedding`: the retry loop started
at attempt 0. `svc attempt` is the model call's outcome on that attempt. -/
def generate_single_embedding {E : Type} (svc : Nat → Except String E)
    (retry_attempts retry_delay : Nat) : Except String E × Nat × Nat :=
  retryLoop svc retry_attempts retry_delay 0

/-! ## Result analysis and filtering (`src/common/utils/result_formatter.py`) -/

/-- Model of `StatisticalSummary` (result_formatter.py lines 21-29) over exact
rationals. Python's `statistics.stdev` stores the square root of the
sample variance; we record the sample variance itself (`stdev` squared),
since `√` leaves `ℚ` and no verified claim inspects the value. -/
structure StatisticalSummary where
  count : Nat
  mean : ℚ
  median : ℚ
  min_value : ℚ
  max_value : ℚ
  sampleVariance : Option ℚ
deriving Repr, DecidableEq

/-- Model of `statistics.mean`. -/
def meanQ (l : List ℚ) : ℚ := l.sum / l.length

/-- Model of `statistics.median`: middle element of the sorted list, or the average
of the two middle elements when the length is even. -/
def medianQ (l : List ℚ) : ℚ :=
  let s := l.insertionSort (· ≤ ·)
  let n := l.length
  if n % 2 = 1 then s.getD (n / 2) 0
  else (s.getD (n / 2 - 1) 0 + s.getD (n / 2) 0) / 2

/-- Model of `min(l)` for a nonempty list. -/
def minQ (l : List ℚ) : ℚ := l.foldr min (l.headD 0)

/-- Model of `max(l)` for a nonempty list. -/
def maxQ (l : List ℚ) : ℚ := l.foldr max (l.headD 0)

/-- The sample variance `Σ (x - mean)² / (n - 1)` (whose square root is
`statistics.stdev`). -/
def sampleVarianceQ (l : List ℚ) : ℚ :=
  let m := meanQ l
  (l.map (fun x => (x - m) ^ 2)).sum / ((l.length : ℚ) - 1)

/-- The value extraction of `ResultAnalyzer.calculate_statistics`
(result_formatter.py lines 66-73): every processed result carries a
`'results'` list, and every entry in it carries `similarity_score`, so
the extraction is the concatenation of all per-question score lists. -/
def extractScores (results : List QueryResult) : List ℚ :=
  (results.map (fun r => r.results.map (·.similarity_score))).flatten

/-- The wrapper `f"Failed to calculate statistics: {e}"` (result_formatter.py
lines 91-94): every `ValueError` raised inside is re-raised with this prefix. -/
def statsFailedMsg (e : String) : String :=
  "Failed to calculate statistics: " ++ e

/-- Model of `ResultAnalyzer.calculate_statistics` (result_formatter.py lines 47-94):
raise `ValueError` on an empty results list; extract all similarity scores;
raise `ValueError` when no scores were found; otherwise compute count,
mean, median, min, max, and (when at least two values) the std-dev. -/
def calculate_statistics (results : List QueryResult) :
    Except String StatisticalSummary :=
  if results.isEmpty then
    Except.error (statsFailedMsg "Empty results list provided")
  else
    let values := extractScores results
    if values.isEmpty then
      Except.error (statsFailedMsg "No values found for field: similarity_score")
    else
      Except.ok
        { count := values.length
          mean := meanQ values
          median := medianQ values
          min_value := minQ values
          max_value := maxQ values
          sampleVariance := if 1 < values.length then some (sampleVarianceQ values) else none }

/-- Model of `ResultFormatter.filter_results` (result_formatter.py lines 294-339):
reject `min_score` outside `[0, 1]`; otherwise keep, per query, the matches
whose `similarity_score >= min_score`, truncated to `max_results_per_query`
when given. -/
def filter_results (results : List QueryResult) (min_score : ℚ)
    (max_results_per_query : Option Nat) : Except String (List QueryResult) :=
  if ¬ (0 ≤ min_score ∧ min_score ≤ 1) then
    Except.error "min_score must be between 0 and 1"
  else
    Except.ok (results.map fun r =>
      let filtered_matches := r.results.filter (fun m => min_score ≤ m.similarity_score)
      let filtered_matches :=
        match max_results_per_query with
        | some k => filtered_matches.take k
        | none => filtered_matches
      { question := r.question, results := filtered_matches })

/-! ## `SemanticSearcher.search` assembly (`src/rag/search.py` lines 169-231)

We model the steps after the raw neighbor lists are obtained: process the
results (threshold filter + metadata join), then — when
`compute_statistics` is enabled — compute the statistics, any exception
being re-wrapped into `SearchError("Search operation failed: ...")`.
The source also derives a detailed dict and a textual summary from the
same `processed_results`; those formatting steps raise no exception on
well-typed input and add no information, so the response here carries the
processed results and the optional statistics. -/

/-- Model of `SearchParameters` (search.py lines 35-41). -/
structure SearchParameters where
  num_results : Nat := 10
  min_similarity_score : ℚ := 0
  include_metadata : Bool := true
  compute_statistics : Bool := true

/-- The searcher's response: the processed per-question results plus the
optional statistics block. -/
structure SearchResponse where
  results : List QueryResult
  statistics : Option StatisticalSummary

/-- The wrapper `f"Search operation failed: {e}"` (search.py lines 228-231). -/
def searchFailedMsg (e : String) : String :=
  "Search operation failed: " ++ e

/-- Model of `SemanticSearcher.search` from the raw neighbor lists onward:
process the results and, when `compute_statistics` is set, compute the
statistics — a `ValueError` from `calculate_statistics` aborts the search
as a `SearchError`. -/
def searchFromRaw (questions : List String)
    (raw_results : List (List MatchNeighbor)) (params : SearchParameters)
    (store : String → Option Dict) : Except String SearchResponse :=
  let processed_results :=
    processSearchResults questions raw_results params.min_similarity_score store
  if params.compute_statistics then
    match calculate_statistics processed_results with
    | Except.error e => Except.error (searchFailedMsg e)
    | Except.ok stats =>
        Except.ok { results := processed_results, statistics := some stats }
  else
    Except.ok { results := processed_results, statistics := none }

/-! ## Helper lemmas -/

theorem processMatch_eq_some {t : ℚ} {store : String → Option Dict}
    {m : MatchNeighbor} {e : MatchEntry}
    (h : processMatch t store m = some e) :
    e.data_point_id = m.id ∧ e.similarity_score = 1 - m.distance / 2 ∧
      store m.id = some e.metadata := by
  unfold processMatch at h
  by_cases hlt : (1 - m.distance / 2 : ℚ) < t
  · simp only [hlt, if_true] at h
    exact absurd h (by simp)
  · simp only [hlt, if_false] at h
    cases hst : store m.id with
    | none => rw [hst] at h; simp [pyTruthy] at h
    | some d =>
      rw [hst] at h
      by_cases hd : d.isEmpty
      · simp [pyTruthy, hd] at h
      · simp only [pyTruthy, hd, Bool.not_false, if_true] at h
        cases h
        simp [Option.getD, hst]

theorem mem_processSearchResults {questions : List String}
    {raw : List (List MatchNeighbor)} {t : ℚ} {store : String → Option Dict}
    {q : QueryResult} {e : MatchEntry}
    (hq : q ∈ processSearchResults questions raw t store) (he : e ∈ q.results) :
    ∃ ms ∈ raw, ∃ m ∈ ms, processMatch t store m = some e := by
  unfold processSearchResults at hq
  obtain ⟨qr, hqr, rfl⟩ := List.mem_map.mp hq
  obtain ⟨-, hraw⟩ := List.of_mem_zip hqr
  obtain ⟨m, hm, hme⟩ := List.mem_filterMap.mp he
  exact ⟨qr.2, hraw, m, hm, hme⟩

theorem validate_ok_iff {countTokens : String → Nat} {max_tokens : Nat}
    {infos : List TextInfo} {texts : List String}
    (h : validate_and_prepare_texts countTokens max_tokens infos = Except.ok texts) :
    texts = infos.map (·.content) := by
  induction infos generalizing texts with
  | nil => cases h; rfl
  | cons info rest ih =>
    unfold validate_and_prepare_texts at h
    by_cases hv : (validate_token_count countTokens info.content max_tokens).is_valid
    · simp only [hv, if_true] at h
      cases hrec : validate_and_prepare_texts countTokens max_tokens rest with
      | error e => rw [hrec] at h; exact absurd h (by simp [Except.map])
      | ok ts =>
        rw [hrec] at h
        simp only [Except.map] at h
        cases h
        simpa using ih hrec
    · simp only [hv, if_false] at h
      exact absurd h (by simp)

/-- The per-query filtering step of `filter_results` with no
`max_results_per_query` truncation: keep the matches whose similarity is
at least `min_score`. -/
def keepAtLeast (min_score : ℚ) (r : QueryResult) : QueryResult :=
  { question := r.question
    results := r.results.filter (fun x => min_score ≤ x.similarity_score) }

/-! ## Concrete values used by the witnesses -/

/-- A concrete metadata store holding one document, for `"dp1"`. -/
def wStore : String → Option Dict :=
  fun s => if s = "dp1" then some [("filename", FieldValue.str "f.md")] else none

/-- One query's raw neighbor list: a single neighbor at distance `0`. -/
def wRaw : List (List MatchNeighbor) := [[{ id := "dp1", distance := 0 }]]

/-- The processed entry for that neighbor: similarity `1 - 0/2 = 1`. -/
def wEntry : MatchEntry :=
  { data_point_id := "dp1", similarity_score := 1,
    metadata := [("filename", FieldValue.str "f.md")] }

/-- The processed per-question result holding `wEntry`. -/
def wQuery : QueryResult := { question := "q", results := [wEntry] }

theorem wProcessMatch_eq : processMatch 0 wStore { id := "dp1", distance := 0 } = some wEntry := by
  simp only [processMatch, wStore, wEntry, pyTruthy]
  norm_num

theorem wProcessed_eq : processSearchResults ["q"] wRaw 0 wStore = [wQuery] := by
  simp [processSearchResults, wRaw, wQuery, wProcessMatch_eq]

/-! ## Claim theorems -/

/-- C2: every entry of the processed search results gets its similarity
score computed as exactly `1 - distance / 2` from the raw distance of the
neighbor it came from (and carries that neighbor's id); the score is
derived before the threshold filter and the metadata join decide the
entry's fate. -/
theorem processed_similarity_is_one_sub_half_distance
    (questions : List String) (raw : List (List MatchNeighbor)) (t : ℚ)
    (store : String → Option Dict) (q : QueryResult) (e : MatchEntry)
    (hq : q ∈ processSearchResults questions raw t store) (he : e ∈ q.results) :
    ∃ ms ∈ raw, ∃ m ∈ ms, e.data_point_id = m.id ∧
      e.similarity_score = 1 - m.distance / 2 := by
  obtain ⟨ms, hms, m, hm, hsome⟩ := mem_processSearchResults hq he
  obtain ⟨h1, h2, -⟩ := processMatch_eq_some hsome
  exact ⟨ms, hms, m, hm, h1, h2⟩

theorem processed_similarity_is_one_sub_half_distance_witness :
    ∃ ms ∈ wRaw, ∃ m ∈ ms, wEntry.data_point_id = m.id ∧
      wEntry.similarity_score = 1 - m.distance / 2 :=
  processed_similarity_is_one_sub_half_distance ["q"] wRaw 0 wStore wQuery wEntry
    (by rw [wProcessed_eq]; exact List.mem_singleton_self _) (by simp [wQuery])

/-- C3: the similarity filter is inclusive at the threshold on both cited
code paths. In `_process_search_results`, a match (with present, nonempty
metadata) is retained exactly when `t ≤ 1 - distance/2`, so a match whose
similarity equals `t` survives and only strictly smaller similarities are
dropped; in `ResultFormatter.filter_results` (for `min_score` in the
accepted `[0,1]` range), a match survives exactly when its similarity is
`≥ min_score`. -/
theorem similarity_threshold_inclusive
    (t : ℚ) (store : String → Option Dict) (m : MatchNeighbor) (md : Dict)
    (hmd : store m.id = some md) (hne : md ≠ [])
    (rs : List QueryResult) (min_score : ℚ)
    (hrange : 0 ≤ min_score ∧ min_score ≤ 1) :
    ((processMatch t store m).isSome ↔ t ≤ 1 - m.distance / 2) ∧
    ∃ out, filter_results rs min_score none = Except.ok out ∧
      (∀ r2 ∈ out, ∀ x ∈ r2.results, min_score ≤ x.similarity_score) ∧
      (∀ r ∈ rs, ∀ x ∈ r.results, min_score ≤ x.similarity_score →
        ∃ r2 ∈ out, x ∈ r2.results) := by
  constructor
  · unfold processMatch
    by_cases hlt : (1 - m.distance / 2 : ℚ) < t
    · simp [hlt, not_le.mpr hlt]
    · have htruthy : pyTruthy (store m.id) = true := by
        rw [hmd]
        simp [pyTruthy, List.isEmpty_iff, hne]
      simp [hlt, htruthy, not_lt.mp hlt]
  · refine ⟨rs.map (keepAtLeast min_score), ?_, ?_, ?_⟩
    · unfold filter_results
      rw [if_neg (not_not_intro hrange)]
      rfl
    · intro r2 hr2 x hx
      obtain ⟨r, hr, rfl⟩ := List.mem_map.mp hr2
      exact of_decide_eq_true (List.mem_filter.mp hx).2
    · intro r hr x hx hge
      exact ⟨_, List.mem_map_of_mem _ hr,
        List.mem_filter.mpr ⟨hx, decide_eq_true hge⟩⟩

theorem similarity_threshold_inclusive_witness :
    ((processMatch (1/2) wStore { id := "dp1", distance := 1 }).isSome ↔
        (1/2 : ℚ) ≤ 1 - 1 / 2) ∧
    ∃ out, filter_results [wQuery] (1/2) none = Except.ok out ∧
      (∀ r2 ∈ out, ∀ x ∈ r2.results, (1/2 : ℚ) ≤ x.similarity_score) ∧
      (∀ r ∈ [wQuery], ∀ x ∈ r.results, (1/2 : ℚ) ≤ x.similarity_score →
        ∃ r2 ∈ out, x ∈ r2.results) :=
  similarity_threshold_inclusive (1/2) wStore { id := "dp1", distance := 1 }
    [("filename", FieldValue.str "f.md")] (by simp [wStore]) (by simp) [wQuery] (1/2)
    (by norm_num)

/-- C7: in the search path, a match whose id has no record in the metadata
store is silently dropped — `processMatch` returns `none` for it (no error
path exists: the function is total) — and every entry that does appear in
the processed results carries the metadata actually stored under its id,
so no entry is ever produced without metadata. -/
theorem missing_metadata_dropped_silently
    (t : ℚ) (store : String → Option Dict) (m : MatchNeighbor)
    (hm : store m.id = none)
    (questions : List String) (raw : List (List MatchNeighbor))
    (q : QueryResult) (hq : q ∈ processSearchResults questions raw t store)
    (e : MatchEntry) (he : e ∈ q.results) :
    processMatch t store m = none ∧ store e.data_point_id = some e.metadata := by
  constructor
  · unfold processMatch
    by_cases hlt : (1 - m.distance / 2 : ℚ) < t
    · simp [hlt]
    · simp [hlt, hm, pyTruthy]
  · obtain ⟨ms, hms, m2, hm2, hsome⟩ := mem_processSearchResults hq he
    obtain ⟨h1, -, h3⟩ := processMatch_eq_some hsome
    rw [h1]
    exact h3

theorem missing_metadata_dropped_silently_witness :
    processMatch 0 wStore { id := "missing", distance := 0 } = none ∧
      wStore wEntry.data_point_id = some wEntry.metadata :=
  missing_metadata_dropped_silently 0 wStore { id := "missing", distance := 0 }
    (by simp [wStore]) ["q"] wRaw wQuery
    (by rw [wProcessed_eq]; exact List.mem_singleton_self _) wEntry (by simp [wQuery])

/-- C9: `FirestoreManager.get_text_metadata` returns `None` when the store
holds no document for the given collection and id; absence takes the
`doc.exists = False` branch, not an error path (the embedded operation is
total — the source's only `raise` re-raises transport failures from the
external API, never mere absence). -/
theorem get_metadata_absent_returns_none (st : FirestoreState) (c i : String)
    (h : st c i = none) : get_text_metadata st c i = none := by
  unfold get_text_metadata docGet
  rw [h]
  rfl

theorem get_metadata_absent_returns_none_witness :
    get_text_metadata emptyState "table_metadata" "dp1" = none :=
  get_metadata_absent_returns_none emptyState "table_metadata" "dp1" rfl

/-- C4: `generate_embeddings` never returns a partial-length result: when
the call returns (rather than raising), the returned vector list has
exactly one vector per input text — enforced by the final count check
`len(all_embeddings) != total_texts → raise EmbeddingError`, for every
service behavior and every batch-completion order. -/
theorem generate_embeddings_length_or_error {E : Type}
    (countTokens : String → Nat) (svc : Nat → List String → Except String (List E))
    (completionOrder : List Nat) (cfg : EmbeddingConfig)
    (text_info_list : List TextInfo) (l : List E)
    (h : generate_embeddings countTokens svc completionOrder cfg text_info_list =
      Except.ok l) :
    l.length = text_info_list.length := by
  unfold generate_embeddings at h
  cases hv : validate_and_prepare_texts countTokens cfg.maxTokens text_info_list with
  | error e =>
    simp only [hv] at h
    exact Except.noConfusion h
  | ok texts =>
    simp only [hv] at h
    cases hc : collectCompleted svc cfg.batchSize (makeBatches cfg.batchSize texts)
        completionOrder [] with
    | error e =>
      simp only [hc] at h
      exact Except.noConfusion h
    | ok all =>
      simp only [hc] at h
      by_cases hlen : all.length = texts.length
      · rw [if_neg (not_not_intro hlen)] at h
        cases h
        rw [hlen, validate_ok_iff hv, List.length_map]
      · rw [if_pos hlen] at h
        exact Except.noConfusion h

theorem generate_embeddings_length_or_error_witness :
    ([1] : List Nat).length = ([⟨"a.md", "a"⟩] : List TextInfo).length :=
  generate_embeddings_length_or_error String.length
    (fun _ texts => Except.ok (texts.map String.length)) [0] {} [⟨"a.md", "a"⟩]
    [1] rfl

theorem validate_ok_of_all (countTokens : String → Nat) (max_tokens : Nat)
    (infos : List TextInfo)
    (hall : ∀ info ∈ infos, countTokens info.content ≤ max_tokens) :
    validate_and_prepare_texts countTokens max_tokens infos =
      Except.ok (infos.map (·.content)) := by
  induction infos with
  | nil => rfl
  | cons info rest ih =>
    have h1 : countTokens info.content ≤ max_tokens :=
      hall info (List.mem_cons_self _ _)
    have h2 := ih (fun i hi => hall i (List.mem_cons_of_mem _ hi))
    unfold validate_and_prepare_texts
    simp [validate_token_count, h1, h2, Except.map]

theorem validate_error_at_first (countTokens : String → Nat) (max_tokens : Nat)
    (infos : List TextInfo) :
    ∀ bad, infos.find? (fun i => max_tokens < countTokens i.content) = some bad →
      validate_and_prepare_texts countTokens max_tokens infos =
        Except.error (validationFailedMsg bad.filename
          (tokenLimitMsg (countTokens bad.content) max_tokens)) := by
  induction infos with
  | nil => intro bad hbad; simp at hbad
  | cons info rest ih =>
    intro bad hbad
    by_cases hip : max_tokens < countTokens info.content
    · rw [List.find?_cons_of_pos _ (by simpa using hip)] at hbad
      cases hbad
      unfold validate_and_prepare_texts
      simp [validate_token_count, Nat.not_le.mpr hip, tokenLimitMsg]
    · rw [List.find?_cons_of_neg _ (by simpa using hip)] at hbad
      unfold validate_and_prepare_texts
      simp [validate_token_count, Nat.not_lt.mp hip, ih bad hbad, Except.map]

/-- C5: token validation is all-or-nothing and runs before any embedding
call. If every text's token count is at most the limit, validation
succeeds and yields all contents in order; if some text exceeds the limit,
the whole batch fails with the error naming the first offending entry's
label, and `generate_embeddings` then fails with that same validation
error for *every* service behavior and completion order — i.e. no
embedding call can influence (or partially survive) the outcome. -/
theorem validate_texts_all_or_nothing {E : Type} (countTokens : String → Nat)
    (max_tokens : Nat) (infos : List TextInfo) :
    ((∀ info ∈ infos, countTokens info.content ≤ max_tokens) →
      validate_and_prepare_texts countTokens max_tokens infos =
        Except.ok (infos.map (·.content))) ∧
    (∀ bad, infos.find? (fun i => max_tokens < countTokens i.content) = some bad →
      validate_and_prepare_texts countTokens max_tokens infos =
        Except.error (validationFailedMsg bad.filename
          (tokenLimitMsg (countTokens bad.content) max_tokens)) ∧
      ∀ (svc : Nat → List String → Except String (List E)) completionOrder cfg,
        EmbeddingConfig.maxTokens cfg = max_tokens →
        generate_embeddings countTokens svc completionOrder cfg infos =
          Except.error (embeddingFailedMsg (validationFailedMsg bad.filename
            (tokenLimitMsg (countTokens bad.content) max_tokens)))) := by
  refine ⟨validate_ok_of_all countTokens max_tokens infos, ?_⟩
  intro bad hbad
  have herr := validate_error_at_first countTokens max_tokens infos bad hbad
  refine ⟨herr, ?_⟩
  intro svc completionOrder cfg hcfg
  unfold generate_embeddings
  rw [hcfg, herr]

theorem validate_texts_all_or_nothing_witness :
    validate_and_prepare_texts String.length 2 [⟨"a.md", "aa"⟩] =
      Except.ok (([⟨"a.md", "aa"⟩] : List TextInfo).map (·.content)) ∧
    validate_and_prepare_texts String.length 2 [⟨"a.md", "aa"⟩, ⟨"b.md", "bbb"⟩] =
      Except.error (validationFailedMsg "b.md" (tokenLimitMsg 3 2)) ∧
    generate_embeddings String.length
        (fun _ texts => Except.ok (texts.map String.length)) [0]
        { maxTokens := 2 } [⟨"a.md", "aa"⟩, ⟨"b.md", "bbb"⟩] =
      Except.error (embeddingFailedMsg (validationFailedMsg "b.md" (tokenLimitMsg 3 2))) := by
  have h1 := (validate_texts_all_or_nothing (E := List Nat) String.length 2
    [⟨"a.md", "aa"⟩]).1 (by decide)
  have hC := validate_texts_all_or_nothing (E := Nat) String.length 2
    ([⟨"a.md", "aa"⟩, ⟨"b.md", "bbb"⟩] : List TextInfo)
  have h2 := hC.2 (⟨"b.md", "bbb"⟩ : TextInfo) (by decide)
  exact ⟨h1, h2.1, h2.2 (fun _ texts => Except.ok (texts.map String.length)) [0]
    { maxTokens := 2 } rfl⟩

/-- C10: when no match at all survives filtering (every processed
per-question result has an empty match list — in particular when the
question list itself is empty), `calculate_statistics` raises `ValueError`,
and a `search` call with `compute_statistics` enabled therefore fails with
a `SearchError` instead of returning its (empty) results. -/
theorem statistics_on_empty_results_error (questions : List String)
    (raw : List (List MatchNeighbor)) (params : SearchParameters)
    (store : String → Option Dict)
    (hstats : params.compute_statistics = true)
    (hempty : ∀ q ∈ processSearchResults questions raw params.min_similarity_score store,
        q.results = []) :
    ∃ e, calculate_statistics
        (processSearchResults questions raw params.min_similarity_score store) =
          Except.error e ∧
      searchFromRaw questions raw params store = Except.error (searchFailedMsg e) := by
  have hcalc : ∃ e, calculate_statistics
      (processSearchResults questions raw params.min_similarity_score store) =
        Except.error e := by
    by_cases hnil :
        (processSearchResults questions raw params.min_similarity_score store).isEmpty
    · refine ⟨statsFailedMsg "Empty results list provided", ?_⟩
      unfold calculate_statistics
      rw [if_pos hnil]
    · have hsc : extractScores
          (processSearchResults questions raw params.min_similarity_score store) = [] := by
        unfold extractScores
        rw [List.flatten_eq_nil_iff]
        intro l hl
        obtain ⟨q, hq, rfl⟩ := List.mem_map.mp hl
        rw [hempty q hq]
        rfl
      refine ⟨statsFailedMsg "No values found for field: similarity_score", ?_⟩
      unfold calculate_statistics
      rw [if_neg hnil]
      simp only [hsc]
      rfl
  obtain ⟨e, he⟩ := hcalc
  refine ⟨e, he, ?_⟩
  unfold searchFromRaw
  simp only [hstats, if_true, he]

theorem statistics_on_empty_results_error_witness :
    ∃ e, calculate_statistics
        (processSearchResults ["q"] [[]]
          (SearchParameters.min_similarity_score {}) wStore) = Except.error e ∧
      searchFromRaw ["q"] [[]] {} wStore = Except.error (searchFailedMsg e) :=
  statistics_on_empty_results_error ["q"] [[]] {} wStore rfl (by decide)

/-- C1 (evaluation of the code at the failing input): with two single-text
batches whose futures complete in reverse order, `generate_embeddings`
returns the vectors in completion order — `[embed "bb", embed "a"]` — not
in input order `[embed "a", embed "bb"]`. The `as_completed` loop
`extend`s `all_embeddings` in completion order and never reorders by the
original batch index (`future_to_batch` is consulted only for logging),
so the claimed input-order guarantee fails on this implementation. -/
theorem generate_embeddings_completion_order_eval :
    generate_embeddings String.length
        (fun _ texts => Except.ok (texts.map String.length)) [1, 0]
        { batchSize := 1 } [⟨"a.md", "a"⟩, ⟨"b.md", "bb"⟩] =
      Except.ok [2, 1] ∧
    ([⟨"a.md", "a"⟩, ⟨"b.md", "bb"⟩] : List TextInfo).map
        (fun i => i.content.length) = [1, 2] ∧
    ([2, 1] : List Nat) ≠ [1, 2] :=
  ⟨rfl, rfl, by decide⟩

/-- C8 counterexample: saving identical metadata twice for the same id —
first at time 1, then at time 2 — leaves `created_at = 2`, the second
write's time, not the first write's time 1: `save_text_metadata` executes
`doc_ref.set` with a fresh `datetime.now()` for `created_at` on every
call, overwriting the whole document. -/
theorem resave_overwrites_created_at_counterexample :
    dictGet (((save_text_metadata
        (save_text_metadata emptyState "table_metadata" "dp1" "text a" none 1)
        "table_metadata" "dp1" "text a" none 2) "table_metadata" "dp1").getD [])
      "created_at" = some (FieldValue.time 2) ∧
    some (FieldValue.time 2) ≠ some (FieldValue.time 1) :=
  ⟨rfl, by decide⟩

/-- C8 amended: re-saving identical metadata for the same id twice yields
a record whose `created_at` and `updated_at` BOTH reflect the second
write (the save is a whole-document `set`, so the first write's
`created_at` is not preserved); all non-timestamp fields equal the saved
values. -/
theorem resave_sets_both_timestamps (st : FirestoreState) (c i txt : String)
    (t1 t2 : Nat) :
    ∃ d, (save_text_metadata (save_text_metadata st c i txt none t1)
        c i txt none t2) c i = some d ∧
      dictGet d "created_at" = some (FieldValue.time t2) ∧
      dictGet d "updated_at" = some (FieldValue.time t2) ∧
      dictGet d "data_point_id" = some (FieldValue.str i) ∧
      dictGet d "text" = some (FieldValue.str txt) := by
  refine ⟨[("data_point_id", FieldValue.str i), ("text", FieldValue.str txt),
    ("created_at", FieldValue.time t2), ("updated_at", FieldValue.time t2)],
    ?_, rfl, rfl, rfl, rfl⟩
  simp [save_text_metadata, stateSet]

theorem retryLoop_all_fail {E : Type} (svc : Nat → Except String E)
    (retry_attempts retry_delay : Nat)
    (hfail : ∀ a, a < retry_attempts → ∃ err, svc a = Except.error err) :
    ∀ fuel attempt, retry_attempts - attempt = fuel → attempt < retry_attempts →
      ∃ msg, retryLoop svc retry_attempts retry_delay attempt =
        (Except.error msg, retry_attempts, (retry_attempts - 1) * retry_delay) := by
  intro fuel
  induction fuel with
  | zero => intro attempt hfuel hlt; omega
  | succ n ih =>
    intro attempt hfuel hlt
    obtain ⟨err, herr⟩ := hfail attempt hlt
    by_cases hlast : attempt = retry_attempts - 1
    · refine ⟨singleFailMsg retry_attempts err, ?_⟩
      unfold retryLoop
      simp only [dif_pos hlt, herr]
      rw [if_pos hlast, hlast, Nat.sub_add_cancel (by omega : 1 ≤ retry_attempts)]
    · obtain ⟨msg, hmsg⟩ := ih (attempt + 1) (by omega) (by omega)
      refine ⟨msg, ?_⟩
      unfold retryLoop
      simp only [dif_pos hlt, herr]
      rw [if_neg hlast, hmsg]

theorem retryLoop_first_success {E : Type} (svc : Nat → Except String E)
    (retry_attempts retry_delay k : Nat) (v : E)
    (hk : k < retry_attempts)
    (hfail : ∀ a, a < k → ∃ err, svc a = Except.error err)
    (hok : svc k = Except.ok v) :
    ∀ fuel attempt, k - attempt = fuel → attempt ≤ k →
      retryLoop svc retry_attempts retry_delay attempt =
        (Except.ok v, k + 1, k * retry_delay) := by
  intro fuel
  induction fuel with
  | zero =>
    intro attempt hfuel hle
    have hak : attempt = k := by omega
    subst hak
    unfold retryLoop
    simp only [dif_pos hk, hok]
  | succ n ih =>
    intro attempt hfuel hle
    have haltk : attempt < k := by omega
    have hlt2 : attempt < retry_attempts := by omega
    have hne : attempt ≠ retry_attempts - 1 := by omega
    obtain ⟨err, herr⟩ := hfail attempt haltk
    unfold retryLoop
    simp only [dif_pos hlt2, herr]
    rw [if_neg hne, ih (attempt + 1) (by omega) (by omega)]

theorem collectCompleted_error {E : Type}
    (svc : Nat → List String → Except String (List E)) (batchSize : Nat)
    (batches : List (List String)) :
    ∀ (completionOrder : List Nat) (acc : List E) (batch_idx : Nat),
      batch_idx ∈ completionOrder →
      (∃ err, svc 0 (batches.getD batch_idx []) = Except.error err) →
      ∃ msg, collectCompleted svc batchSize batches completionOrder acc =
        Except.error msg := by
  intro completionOrder
  induction completionOrder with
  | nil => intro acc bi h; simp at h
  | cons i rest ih =>
    intro acc bi hmem hbad
    unfold collectCompleted
    cases hsvc : svc 0 (batches.getD i []) with
    | error e => exact ⟨batchFailedMsg i (processBatchMsg (i * batchSize) e), rfl⟩
    | ok embs =>
      have hbi : bi ∈ rest := by
        rcases List.mem_cons.mp hmem with h | h
        · subst h
          obtain ⟨err, herr⟩ := hbad
          rw [hsvc] at herr
          exact Except.noConfusion herr
        · exact h
      obtain ⟨msg, hmsg⟩ := ih (acc ++ embs) bi hbi hbad
      exact ⟨msg, hmsg⟩

/-- A model-call behavior that fails transiently: the first attempt raises,
every later attempt succeeds (returning one vector per input text). -/
def svcTransient : Nat → List String → Except String (List Nat) :=
  fun attempt texts =>
    if attempt = 0 then Except.error "transient" else Except.ok (texts.map String.length)

/-- C6 counterexample: with the default configuration
(`MAX_RETRY_ATTEMPTS = 3`) and a batch call that fails only on its first
attempt — a second attempt would succeed — `generate_embeddings` aborts
with an error after that single call. The claim, under which every
embedding call issued by the batcher is retried up to the configured 3
attempts and the failure propagates only after exhausting them, would
require this operation to succeed; the batcher's `_process_batch` path in
fact performs no retry. -/
theorem batcher_no_retry_counterexample :
    generate_embeddings String.length svcTransient [0] {} [⟨"a.md", "a"⟩] =
      Except.error (embeddingFailedMsg (batchFailedMsg 0
        (processBatchMsg 0 "transient"))) ∧
    svcTransient 1 ["a"] = Except.ok [1] ∧
    EmbeddingConfig.retryAttempts {} = 3 :=
  ⟨rfl, rfl, rfl⟩

/-- C6 amended: retry-with-delay applies to the single-text helper
`_generate_single_embedding`, not to the batch calls the batcher issues.
(1) When every attempt fails, the single-text helper makes exactly
`retry_attempts` model calls, sleeping `retry_delay` between consecutive
attempts (`(retry_attempts - 1) * retry_delay` total), and only then
propagates the failure. (2) When the first success comes at attempt `k`,
it returns that value after `k + 1` calls and `k * retry_delay` sleep.
(3) The batch calls dispatched by `generate_embeddings` via
`_process_batch` are not retried: whenever the single (attempt-0) call of
any dispatched batch fails, the whole operation aborts with an error — no
partial result — regardless of how the service would behave on further
attempts. -/
theorem retry_single_not_batch {E : Type}
    (svc1 : Nat → Except String E) (retry_attempts retry_delay k : Nat) (v : E)
    (countTokens : String → Nat)
    (svc : Nat → List String → Except String (List E))
    (completionOrder : List Nat) (cfg : EmbeddingConfig)
    (infos : List TextInfo) (texts : List String) (batch_idx : Nat) :
    ((∀ a, a < retry_attempts → ∃ err, svc1 a = Except.error err) →
      0 < retry_attempts →
      ∃ msg, generate_single_embedding svc1 retry_attempts retry_delay =
        (Except.error msg, retry_attempts, (retry_attempts - 1) * retry_delay)) ∧
    (k < retry_attempts → (∀ a, a < k → ∃ err, svc1 a = Except.error err) →
      svc1 k = Except.ok v →
      generate_single_embedding svc1 retry_attempts retry_delay =
        (Except.ok v, k + 1, k * retry_delay)) ∧
    (validate_and_prepare_texts countTokens cfg.maxTokens infos = Except.ok texts →
      batch_idx ∈ completionOrder →
      (∃ err, svc 0 ((makeBatches cfg.batchSize texts).getD batch_idx []) =
        Except.error err) →
      ∃ msg, generate_embeddings countTokens svc completionOrder cfg infos =
        Except.error msg) := by
  refine ⟨?_, ?_, ?_⟩
  · intro hfail hpos
    exact retryLoop_all_fail svc1 retry_attempts retry_delay hfail
      retry_attempts 0 (by omega) hpos
  · intro hk hfail hok
    exact retryLoop_first_success svc1 retry_attempts retry_delay k v hk hfail hok
      k 0 (by omega) (by omega)
  · intro hv hmem hbad
    obtain ⟨msg, hmsg⟩ := collectCompleted_error svc cfg.batchSize
      (makeBatches cfg.batchSize texts) completionOrder [] batch_idx hmem hbad
    refine ⟨embeddingFailedMsg msg, ?_⟩
    unfold generate_embeddings
    simp only [hv, hmsg]

theorem retry_single_not_batch_witness :
    (∃ msg, generate_single_embedding
        (fun _ => (Except.error "down" : Except String Nat)) 3 1 =
      (Except.error msg, 3, 2)) ∧
    generate_single_embedding
        (fun a => if a = 0 then Except.error "transient" else Except.ok 42) 3 1 =
      (Except.ok 42, 2, 1) ∧
    (∃ msg, generate_embeddings String.length svcTransient [0] {} [⟨"a.md", "a"⟩] =
      Except.error msg) := by
  have hC := retry_single_not_batch (E := Nat)
    (fun _ => (Except.error "down" : Except String Nat)) 3 1 1 42 String.length
    svcTransient [0] {} [⟨"a.md", "a"⟩] ["a"] 0
  have hD := retry_single_not_batch (E := Nat)
    (fun a => if a = 0 then Except.error "transient" else Except.ok 42) 3 1 1 42
    String.length svcTransient [0] {} [⟨"a.md", "a"⟩] ["a"] 0
  refine ⟨?_, ?_, ?_⟩
  · exact hC.1 (fun a _ => ⟨"down", rfl⟩) (by omega)
  · exact hD.2.1 (by omega) (fun a ha => ⟨"transient", by interval_cases a; rfl⟩) rfl
  · exact hC.2.2 rfl (by decide) ⟨"transient", rfl⟩

end RagVectorSearch
